import Mathlib

/-!
Verification of the Gemini proxy server (request/response logging pipeline).

The repository ships its unit tests (`unit_test.py`) and a database
inspection script (`check_db.py`); the application modules (`config.py`,
`app.py`, `models.py`, `database.py`) are not present, so the config
loader, upstream adapter, generation orchestrator and HTTP handler are
modelled from the specification.  `check_db.py` is embedded directly from
its source.
-/

namespace GeminiProxy

/-! ## A small JSON model

The HTTP bodies are JSON.  We model JSON values with a renderer (the raw
text as received over the wire); string rendering quotes without escaping,
which suffices for the prompt texts considered here. -/

mutual

inductive Json where
  | str : String → Json
  | num : Int → Json
  | obj : JFields → Json
  deriving DecidableEq

inductive JFields where
  | nil : JFields
  | cons : String → Json → JFields → JFields
  deriving DecidableEq

end

mutual

def Json.render : Json → String
  | .str s => "\"" ++ s ++ "\""
  | .num n => toString n
  | .obj fs => "\x7b" ++ fs.render ++ "\x7d"

def JFields.render : JFields → String
  | .nil => ""
  | .cons k v .nil => "\"" ++ k ++ "\": " ++ v.render
  | .cons k v fs => "\"" ++ k ++ "\": " ++ v.render ++ ", " ++ fs.render

end

/-- Look up a key among JSON object fields (first match). -/
def JFields.lookup : JFields → String → Option Json
  | .nil, _ => none
  | .cons k v fs, key => if k = key then some v else fs.lookup key

/-- The list of keys of JSON object fields. -/
def JFields.names : JFields → List String
  | .nil => []
  | .cons k _ fs => k :: fs.names

/-- The list of keys of a JSON object value (empty for non-objects). -/
def Json.fieldNames : Json → List String
  | .obj fs => fs.names
  | _ => []

/-- `containsStr raw sub` : `sub` occurs verbatim inside `raw`. -/
def containsStr (raw sub : String) : Prop :=
  ∃ pre post, raw = pre ++ sub ++ post

/-! ## Configuration

Modelled from the spec: `config.py` is absent from the sources.
"Configuration surface: upstream API credential, ordered list of candidate
model identifiers, default model identifier (must be a member of the
candidate list) — supplied via environment or config file; absence of the
credential is a startup-time fatal error." -/

/-- The relevant environment variables / config-file entries. -/
structure Env where
  gemini_api_key : Option String
  models : List String
  model_name : Option String

/-- The validated configuration object (fields named as in `Config` of
`config.py`, referenced by `unit_test.py`). -/
structure Config where
  GEMINI_API_KEY : String
  MODELS : List String
  MODEL_NAME : String
  deriving DecidableEq

/-- Modelled from the spec: the config loader of the absent `config.py`.
Resolves the credential and candidate models from the environment;
absence (or emptiness) of the credential is a startup-time fatal error,
the candidate list must be non-empty, and the default model must be a
member of the candidate list (defaulting to the first candidate). -/
def loadConfig (e : Env) : Except String Config :=
  match e.gemini_api_key with
  | none => .error "GEMINI_API_KEY is not set"
  | some key =>
      if key = "" then .error "GEMINI_API_KEY is empty"
      else
        match e.models with
        | [] => .error "MODELS list is empty"
        | m :: ms =>
            match e.model_name with
            | none => .ok ⟨key, m :: ms, m⟩
            | some name =>
                if name ∈ m :: ms then .ok ⟨key, m :: ms, name⟩
                else .error "MODEL_NAME is not in MODELS"

/-! ## Upstream client adapter

Modelled from the spec: the adapter module is absent from the sources.
"generate(model_name, prompt_text, generation_options) → \x7btext,
prompt_tokens, completion_tokens, total_tokens\x7d | Failure"; all failure
conditions are surfaced as a single `UpstreamFailure(model_name, cause)`.
The external provider is an opaque network dependency, modelled as an
oracle from (model, prompt) to an optional reply. -/

/-- A raw reply from the external generative-AI provider. -/
structure ProviderReply where
  text : String
  prompt_tokens : Nat
  completion_tokens : Nat
  latency_ms : Nat
  deriving DecidableEq

/-- The external provider as an oracle: `none` models any network /
provider / malformed-payload failure for that (model, prompt) call. -/
def Provider := String → String → Option ProviderReply

/-- The adapter's typed failure. -/
structure UpstreamFailure where
  model_name : String
  cause : String
  deriving DecidableEq

/-- The adapter's canonical success shape: `total_tokens` is established
here, as the sum of the other two counts. -/
structure AdapterSuccess where
  text : String
  prompt_tokens : Nat
  completion_tokens : Nat
  total_tokens : Nat
  latency_ms : Nat
  deriving DecidableEq

/-- Modelled from the spec: the adapter `generate` of the absent upstream
client module.  Requires a non-empty model name and prompt; performs one
provider call; normalizes the reply to the canonical result shape, with
`total_tokens` computed as prompt + completion; surfaces every failure as
`UpstreamFailure`. -/
def generate (provider : Provider) (model_name prompt_text : String) :
    Except UpstreamFailure AdapterSuccess :=
  if model_name = "" then .error ⟨model_name, "empty model name"⟩
  else if prompt_text = "" then .error ⟨model_name, "empty prompt"⟩
  else
    match provider model_name prompt_text with
    | none => .error ⟨model_name, "provider call failed"⟩
    | some r =>
        .ok ⟨r.text, r.prompt_tokens, r.completion_tokens,
             r.prompt_tokens + r.completion_tokens, r.latency_ms⟩

/-! ## Generation orchestrator

Modelled from the spec: the orchestrator module is absent from the
sources.  "iterate candidate_models in configured order; for each, invoke
the adapter; on success, stop and return \x7btext, model_used=that_model,
token_metrics, elapsed_ms\x7d ... On failure, record the failure and
continue to the next candidate.  If all candidates fail, return
`AllModelsFailed` carrying the ordered list of per-model failure
causes." -/

/-- The orchestrator's unified success result. -/
structure GenerationResult where
  text : String
  model_used : String
  prompt_tokens : Nat
  completion_tokens : Nat
  total_tokens : Nat
  elapsed_ms : Nat
  deriving DecidableEq

/-- All candidates exhausted: the ordered list of per-model failures. -/
structure AllModelsFailed where
  failures : List UpstreamFailure
  deriving DecidableEq

/-- Modelled from the spec: `generate_with_fallback` of the absent
orchestrator module.  Tries the candidates in configured order, one at a
time, short-circuiting at the first adapter success.  Also returns the
ordered list of models actually attempted (the attempt trace). -/
def generate_with_fallback (provider : Provider) (prompt : String) :
    List String → List String × Except AllModelsFailed GenerationResult
  | [] => ([], .error ⟨[]⟩)
  | m :: rest =>
      match generate provider m prompt with
      | .ok s =>
          ([m], .ok ⟨s.text, m, s.prompt_tokens, s.completion_tokens,
                     s.total_tokens, s.latency_ms⟩)
      | .error f =>
          match generate_with_fallback provider prompt rest with
          | (tr, .ok r) => (m :: tr, .ok r)
          | (tr, .error a) => (m :: tr, .error ⟨f :: a.failures⟩)

/-! ## Persistence data model

Modelled from the spec: `models.py` / `database.py` are absent from the
sources.  Two record kinds with auto-assigned identifiers and creation
timestamps; timestamps are drawn from a monotone clock kept in the
database state. -/

/-- A request-log row (`RequestLog` of `models.py`). -/
structure RequestLog where
  id : Nat
  endpoint : String
  client_ip : String
  request_body : String
  timestamp : Nat
  deriving DecidableEq

/-- A response-log row (`ResponseLog` of `models.py`), referencing the
originating request row through `request_id`. -/
structure ResponseLog where
  id : Nat
  request_id : Nat
  model_used : String
  response : String
  prompt_tokens : Nat
  completion_tokens : Nat
  total_tokens : Nat
  response_time_ms : Nat
  timestamp : Nat
  deriving DecidableEq

/-- The persistence state: the two tables, the auto-increment counters
and a monotone clock assigning creation timestamps. -/
structure DB where
  request_logs : List RequestLog
  response_logs : List ResponseLog
  next_req_id : Nat
  next_resp_id : Nat
  clock : Nat
  deriving DecidableEq

/-- The correlation invariant of the data model: every ResponseLog
references a RequestLog that exists, with an earlier or equal
timestamp. -/
def DB.wf (db : DB) : Prop :=
  ∀ rl ∈ db.response_logs,
    ∃ q ∈ db.request_logs, q.id = rl.request_id ∧ q.timestamp ≤ rl.timestamp

/-! ## HTTP endpoint handler

Modelled from the spec: `app.py` is absent from the sources.  The handler
for `POST /gemini/generate`:
1. parse and validate input (malformed JSON or missing non-empty
   `prompt.text` → client error before any persistence or upstream call);
2. persist a RequestLog with the raw body as received;
3. invoke the orchestrator;
4. on `AllModelsFailed` return a server error (the modelled policy at the
   spec's decision point: skip ResponseLog persistence, so the log never
   shows fabricated zero metrics);
5. on success persist a ResponseLog referencing the RequestLog id;
6. return JSON \x7btext, model, metrics\x7d.
A ResponseLog write failure (`persistOk = false`) must not mask a
successful generation. -/

/-- The raw HTTP request body: either text that is not valid JSON, or a
JSON value whose received text is its rendering. -/
inductive RawBody where
  | malformed (text : String)
  | json (j : Json)
  deriving DecidableEq

/-- The body text exactly as received over the wire. -/
def RawBody.raw : RawBody → String
  | .malformed t => t
  | .json j => j.render

/-- Extract the required non-empty `prompt.text` field from a parsed
JSON body. -/
def extractPrompt (j : Json) : Option String :=
  match j with
  | .obj fields =>
      match fields.lookup "prompt" with
      | some (.obj pf) =>
          match pf.lookup "text" with
          | some (.str t) => if t = "" then none else some t
          | _ => none
      | _ => none
  | _ => none

/-- Parse and validate: `none` on malformed JSON or a missing/empty
prompt text. -/
def parseBody : RawBody → Option String
  | .malformed _ => none
  | .json j => extractPrompt j

/-- The observable steps of one request, in the order they happen. -/
inductive Event where
  | reqLogWrite (id : Nat)
  | upstreamCall (model : String)
  | respLogWrite (id : Nat)
  deriving DecidableEq

/-- An HTTP response: status code and JSON body. -/
structure HttpResponse where
  status : Nat
  body : Json
  deriving DecidableEq

/-- The 200 success payload:
`\x7btext, model, metrics: \x7bprompt_tokens, completion_tokens, total_tokens\x7d\x7d`. -/
def successJson (text model : String) (pt ct tt : Nat) : Json :=
  .obj (.cons "text" (.str text)
       (.cons "model" (.str model)
       (.cons "metrics"
          (.obj (.cons "prompt_tokens" (.num pt)
                (.cons "completion_tokens" (.num ct)
                (.cons "total_tokens" (.num tt) .nil)))) .nil)))

/-- An error payload. -/
def errorJson (message : String) : Json :=
  .obj (.cons "error" (.str message) .nil)

/-- Modelled from the spec: the `/gemini/generate` handler of the absent
`app.py`.  `persistOk` models whether the response-log write succeeds.
Returns the new database state, the HTTP response, and the ordered event
trace of the call. -/
def handleGenerate (provider : Provider) (persistOk : Bool)
    (candidates : List String) (db : DB) (client_ip : String)
    (body : RawBody) : DB × HttpResponse × List Event :=
  match parseBody body with
  | none => (db, ⟨400, errorJson "malformed body or missing prompt text"⟩, [])
  | some prompt_text =>
      let reqRow : RequestLog :=
        ⟨db.next_req_id, "/gemini/generate", client_ip, body.raw, db.clock⟩
      let db1 : DB :=
        { db with request_logs := db.request_logs ++ [reqRow],
                  next_req_id := db.next_req_id + 1,
                  clock := db.clock + 1 }
      match generate_with_fallback provider prompt_text candidates with
      | (attempted, .error _) =>
          (db1, ⟨500, errorJson "all candidate models failed"⟩,
           Event.reqLogWrite reqRow.id :: attempted.map Event.upstreamCall)
      | (attempted, .ok r) =>
          let resp : HttpResponse :=
            ⟨200, successJson r.text r.model_used
                    r.prompt_tokens r.completion_tokens r.total_tokens⟩
          if persistOk then
            let respRow : ResponseLog :=
              ⟨db1.next_resp_id, reqRow.id, r.model_used, r.text,
               r.prompt_tokens, r.completion_tokens, r.total_tokens,
               r.elapsed_ms, db1.clock⟩
            let db2 : DB :=
              { db1 with response_logs := db1.response_logs ++ [respRow],
                         next_resp_id := db1.next_resp_id + 1,
                         clock := db1.clock + 1 }
            (db2, resp,
             Event.reqLogWrite reqRow.id ::
               attempted.map Event.upstreamCall ++ [Event.respLogWrite respRow.id])
          else
            (db1, resp, Event.reqLogWrite reqRow.id :: attempted.map Event.upstreamCall)

/-! ## `check_db.py` (embedded from source)

The script opens `metrics.db`, runs `SELECT * FROM request_logs LIMIT 5`,
prints the rows, runs `SELECT * FROM response_logs LIMIT 5`, prints the
rows, and exits.  We model a small SQL statement language with its effect
on a SQLite database state and embed the script as its statement list. -/

/-- A database row as fetched by `cursor.fetchall()`: a list of column
values. -/
def Row := List String

/-- The SQLite database: tables by name. -/
def SqliteDB := List (String × List Row)

/-- The SQL statements relevant to this repository's scripts. -/
inductive Sql where
  | select (table : String) (limit : Nat)
  | insertRow (table : String) (row : Row)
  | deleteAll (table : String)
  | updateAll (table : String) (f : Row → Row)

/-- Whether a statement is a plain SELECT (read-only). -/
def Sql.isSelect : Sql → Bool
  | .select _ _ => true
  | _ => false

/-- Table contents by name (empty when absent). -/
def SqliteDB.table (db : SqliteDB) (name : String) : List Row :=
  match db.find? (fun p => p.1 = name) with
  | some p => p.2
  | none => []

/-- Replace a table's contents. -/
def SqliteDB.setTable (db : SqliteDB) (name : String) (rows : List Row) :
    SqliteDB :=
  db.map (fun p => if p.1 = name then (p.1, rows) else p)

/-- Execute one statement: the new database state and the fetched rows. -/
def execSql (db : SqliteDB) : Sql → SqliteDB × List Row
  | .select t lim => (db, (db.table t).take lim)
  | .insertRow t r => (db.setTable t (db.table t ++ [r]), [])
  | .deleteAll t => (db.setTable t [], [])
  | .updateAll t f => (db.setTable t ((db.table t).map f), [])

/-- Execute a statement list, collecting each statement's fetched rows. -/
def execScript (db : SqliteDB) : List Sql → SqliteDB × List (List Row)
  | [] => (db, [])
  | s :: rest =>
      let (db1, out) := execSql db s
      let (db2, outs) := execScript db1 rest
      (db2, out :: outs)

/-- The statements issued by `check_db.py`, in order: one SELECT over
`request_logs` and one over `response_logs`, each `LIMIT 5`. -/
def check_db_script : List Sql :=
  [Sql.select "request_logs" 5, Sql.select "response_logs" 5]

/-- Running `check_db.py` against a database state. -/
def check_db_run (db : SqliteDB) : SqliteDB × List (List Row) :=
  execScript db check_db_script

/-- The required intra-request ordering of observable steps: the
RequestLog write (if any) comes first, then the upstream calls, then at
most one ResponseLog write at the very end. -/
def orderedTrace (tr : List Event) : Prop :=
  tr = [] ∨
  ∃ (i : Nat) (models : List String) (tail : List Event),
    tr = Event.reqLogWrite i :: models.map Event.upstreamCall ++ tail ∧
    (tail = [] ∨ ∃ j, tail = [Event.respLogWrite j])

/-! ## Concrete fixtures (used by the witnesses) -/

/-- A provider for which only the model `gemini-pro` answers. -/
def demoProvider : Provider := fun m _p =>
  if m = "gemini-pro" then some ⟨"pong", 1, 2, 7⟩ else none

/-- A provider for which every call fails. -/
def noProvider : Provider := fun _ _ => none

/-- A well-formed request body: `\x7b"prompt": \x7b"text": "ping"\x7d\x7d`. -/
def demoBody : RawBody :=
  .json (.obj (.cons "prompt" (.obj (.cons "text" (.str "ping") .nil)) .nil))

/-- A malformed request body. -/
def badBody : RawBody := .malformed "not json"

/-- An initial, empty database state. -/
def demoDB : DB := ⟨[], [], 1, 1, 0⟩

/-- A sample environment with the credential present. -/
def demoEnv : Env := ⟨some "0123456789abc", ["gemini-pro", "gemini-flash"], some "gemini-pro"⟩

/-! ## Lemmas about substring containment and JSON rendering -/

theorem containsStr_self (s : String) : containsStr s s :=
  ⟨"", "", by simp⟩

theorem containsStr_append_left (a b t : String) (h : containsStr b t) :
    containsStr (a ++ b) t := by
  obtain ⟨pre, post, h⟩ := h
  exact ⟨a ++ pre, post, by simp [h, String.append_assoc]⟩

theorem containsStr_append_right (a b t : String) (h : containsStr a t) :
    containsStr (a ++ b) t := by
  obtain ⟨pre, post, h⟩ := h
  exact ⟨pre, post ++ b, by simp [h, String.append_assoc]⟩

theorem containsStr_trans (a b t : String) (h1 : containsStr a b)
    (h2 : containsStr b t) : containsStr a t := by
  obtain ⟨p1, q1, h1⟩ := h1
  obtain ⟨p2, q2, h2⟩ := h2
  exact ⟨p1 ++ p2, q2 ++ q1, by simp [h1, h2, String.append_assoc]⟩

theorem containsStr_mid (a b c : String) : containsStr (a ++ b ++ c) b :=
  containsStr_append_right _ _ _ (containsStr_append_left _ _ _ (containsStr_self b))

/-- A value found among object fields occurs (rendered) inside the
rendered field list. -/
theorem lookup_render_contains : ∀ (fs : JFields) (k : String) (v : Json),
    fs.lookup k = some v → containsStr fs.render v.render
  | .nil, k, v, h => by simp [JFields.lookup] at h
  | .cons k' v' rest, k, v, h => by
      rw [JFields.lookup] at h
      by_cases hk : k' = k
      · subst hk
        rw [if_pos rfl, Option.some.injEq] at h
        subst h
        cases rest with
        | nil =>
            simpa [JFields.render] using
              containsStr_append_left ("\"" ++ k' ++ "\": ") v'.render v'.render
                (containsStr_self _)
        | cons k2 v2 r2 =>
            simpa [JFields.render] using
              containsStr_append_right _ (JFields.cons k2 v2 r2).render _
                (containsStr_append_right _ ", " _
                  (containsStr_append_left ("\"" ++ k' ++ "\": ") v'.render v'.render
                    (containsStr_self _)))
      · simp only [if_neg hk] at h
        cases rest with
        | nil => simp [JFields.lookup] at h
        | cons k2 v2 r2 =>
            simpa [JFields.render] using
              containsStr_append_left _ (JFields.cons k2 v2 r2).render _
                (lookup_render_contains (JFields.cons k2 v2 r2) k v h)

/-- A validated prompt text occurs verbatim in the raw body text. -/
theorem parseBody_contains_raw (b : RawBody) (t : String)
    (h : parseBody b = some t) : containsStr b.raw t := by
  cases b with
  | malformed s => simp [parseBody] at h
  | json j =>
      simp only [parseBody] at h
      unfold extractPrompt at h
      split at h
      · rename_i fields
        split at h
        · rename_i pf hp
          split at h
          · rename_i t' ht
            split at h
            · exact absurd h (by simp)
            · rename_i hne
              have htt : t' = t := by injection h
              subst htt
              have h1 : containsStr fields.render (Json.obj pf).render :=
                lookup_render_contains fields "prompt" (Json.obj pf) hp
              have h2 : containsStr pf.render (Json.str t').render :=
                lookup_render_contains pf "text" (Json.str t') ht
              have h3 : containsStr (RawBody.json (Json.obj fields)).raw
                  fields.render := by
                simpa [RawBody.raw, Json.render] using
                  containsStr_mid "\x7b" fields.render "\x7d"
              have h4 : containsStr (Json.obj pf).render pf.render := by
                simpa [Json.render] using
                  containsStr_mid "\x7b" pf.render "\x7d"
              have h5 : containsStr (Json.str t').render t' := by
                simpa [Json.render] using containsStr_mid "\"" t' "\""
              exact containsStr_trans _ _ _ h3
                (containsStr_trans _ _ _ h1
                  (containsStr_trans _ _ _ h4
                    (containsStr_trans _ _ _ h2 h5)))
          · simp at h
        · simp at h
      · simp at h

/-! ## Lemmas about the adapter and orchestrator -/

/-- The adapter establishes `total_tokens` as the sum of the two other
counts. -/
theorem generate_total_eq_sum (provider : Provider) (m p : String)
    (s : AdapterSuccess) (h : generate provider m p = .ok s) :
    s.total_tokens = s.prompt_tokens + s.completion_tokens := by
  rw [generate] at h
  by_cases hm : m = ""
  · simp [hm] at h
  · by_cases hp : p = ""
    · simp [hm, hp] at h
    · cases hr : provider m p with
      | none => simp [hm, hp, hr] at h
      | some reply =>
          simp only [if_neg hm, if_neg hp, hr, Except.ok.injEq] at h
          subst h
          rfl

/-- A success of the fallback chain decomposes the candidate list around
the first succeeding model: all earlier candidates were attempted (in
order) and failed, and the result's fields come from that model's
adapter call. -/
theorem fallback_ok_decomp (provider : Provider)
    (prompt : String) (candidates attempted : List String)
    (r : GenerationResult)
    (h : generate_with_fallback provider prompt candidates = (attempted, .ok r)) :
    ∃ pre post,
      candidates = pre ++ r.model_used :: post ∧
      attempted = pre ++ [r.model_used] ∧
      (∀ m ∈ pre, ∃ f, generate provider m prompt = .error f) ∧
      ∃ s, generate provider r.model_used prompt = .ok s ∧
        r = ⟨s.text, r.model_used, s.prompt_tokens, s.completion_tokens,
             s.total_tokens, s.latency_ms⟩ := by
  induction candidates generalizing attempted r with
  | nil => simp [generate_with_fallback] at h
  | cons m rest ih =>
      rw [generate_with_fallback] at h
      cases hg : generate provider m prompt with
      | ok s =>
          rw [hg] at h
          simp only [Prod.mk.injEq, Except.ok.injEq] at h
          obtain ⟨ha, hr⟩ := h
          subst ha
          subst hr
          exact ⟨[], rest, by simp, by simp, by simp, s, hg, rfl⟩
      | error f =>
          rw [hg] at h
          cases hrec : generate_with_fallback provider prompt rest with
          | mk tr res =>
              rw [hrec] at h
              cases res with
              | error a => simp at h
              | ok r' =>
                  simp only [Prod.mk.injEq, Except.ok.injEq] at h
                  obtain ⟨ha, hr⟩ := h
                  subst ha
                  subst hr
                  obtain ⟨pre, post, hc, ht, hfail, s, hs, hfields⟩ := ih tr r' hrec
                  refine ⟨m :: pre, post, by simp [hc], by simp [ht], ?_, s, hs, hfields⟩
                  intro x hx
                  rcases List.mem_cons.mp hx with rfl | hx
                  · exact ⟨f, hg⟩
                  · exact hfail x hx

/-! ## Path equations for the handler -/

theorem handleGenerate_invalid (provider : Provider) (persistOk : Bool)
    (candidates : List String) (db : DB) (ip : String) (body : RawBody)
    (hp : parseBody body = none) :
    handleGenerate provider persistOk candidates db ip body =
      (db, ⟨400, errorJson "malformed body or missing prompt text"⟩, []) := by
  unfold handleGenerate
  rw [hp]

theorem handleGenerate_allfail (provider : Provider) (persistOk : Bool)
    (candidates : List String) (db : DB) (ip : String) (body : RawBody)
    (pt : String) (tr : List String) (a : AllModelsFailed)
    (hp : parseBody body = some pt)
    (hg : generate_with_fallback provider pt candidates = (tr, Except.error a)) :
    handleGenerate provider persistOk candidates db ip body =
      (⟨db.request_logs ++ [⟨db.next_req_id, "/gemini/generate", ip, body.raw, db.clock⟩],
        db.response_logs, db.next_req_id + 1, db.next_resp_id, db.clock + 1⟩,
       ⟨500, errorJson "all candidate models failed"⟩,
       Event.reqLogWrite db.next_req_id :: tr.map Event.upstreamCall) := by
  unfold handleGenerate
  simp only [hp, hg]

theorem handleGenerate_ok_persist (provider : Provider)
    (candidates : List String) (db : DB) (ip : String) (body : RawBody)
    (pt : String) (tr : List String) (r : GenerationResult)
    (hp : parseBody body = some pt)
    (hg : generate_with_fallback provider pt candidates = (tr, Except.ok r)) :
    handleGenerate provider true candidates db ip body =
      (⟨db.request_logs ++ [⟨db.next_req_id, "/gemini/generate", ip, body.raw, db.clock⟩],
        db.response_logs ++
          [⟨db.next_resp_id, db.next_req_id, r.model_used, r.text, r.prompt_tokens,
            r.completion_tokens, r.total_tokens, r.elapsed_ms, db.clock + 1⟩],
        db.next_req_id + 1, db.next_resp_id + 1, db.clock + 2⟩,
       ⟨200, successJson r.text r.model_used r.prompt_tokens r.completion_tokens
               r.total_tokens⟩,
       Event.reqLogWrite db.next_req_id :: tr.map Event.upstreamCall ++
         [Event.respLogWrite db.next_resp_id]) := by
  unfold handleGenerate
  simp only [hp, hg]
  rfl

theorem handleGenerate_ok_noPersist (provider : Provider)
    (candidates : List String) (db : DB) (ip : String) (body : RawBody)
    (pt : String) (tr : List String) (r : GenerationResult)
    (hp : parseBody body = some pt)
    (hg : generate_with_fallback provider pt candidates = (tr, Except.ok r)) :
    handleGenerate provider false candidates db ip body =
      (⟨db.request_logs ++ [⟨db.next_req_id, "/gemini/generate", ip, body.raw, db.clock⟩],
        db.response_logs, db.next_req_id + 1, db.next_resp_id, db.clock + 1⟩,
       ⟨200, successJson r.text r.model_used r.prompt_tokens r.completion_tokens
               r.total_tokens⟩,
       Event.reqLogWrite db.next_req_id :: tr.map Event.upstreamCall) := by
  unfold handleGenerate
  simp only [hp, hg]
  rfl

/-! ## The claims -/

/-- C1: for every candidate-model list tried by the orchestrator, the
models are attempted strictly in configured order, one at a time; the
orchestrator stops at the first model whose adapter call succeeds and
returns a result whose `model_used` equals that model, with no result
returned before every earlier candidate has been attempted and failed. -/
theorem C1_fallback_in_order_first_success (provider : Provider)
    (prompt : String) (candidates attempted : List String)
    (r : GenerationResult)
    (h : generate_with_fallback provider prompt candidates = (attempted, .ok r)) :
    ∃ pre post,
      candidates = pre ++ r.model_used :: post ∧
      attempted = pre ++ [r.model_used] ∧
      (∀ m ∈ pre, ∃ f, generate provider m prompt = .error f) ∧
      ∃ s, generate provider r.model_used prompt = .ok s ∧
        r = ⟨s.text, r.model_used, s.prompt_tokens, s.completion_tokens,
             s.total_tokens, s.latency_ms⟩ :=
  fallback_ok_decomp provider prompt candidates attempted r h

/-- Witness for C1: with a three-candidate list whose first two models
fail and whose third succeeds, the orchestrator attempts all three in
order and returns the third model. -/
theorem C1_fallback_in_order_first_success_witness :
    generate_with_fallback demoProvider "ping" ["m-a", "m-b", "gemini-pro"] =
      (["m-a", "m-b", "gemini-pro"],
       Except.ok ⟨"pong", "gemini-pro", 1, 2, 3, 7⟩) ∧
    ∃ pre post,
      ["m-a", "m-b", "gemini-pro"] = pre ++ "gemini-pro" :: post ∧
      (["m-a", "m-b", "gemini-pro"] : List String) = pre ++ ["gemini-pro"] ∧
      (∀ m ∈ pre, ∃ f, generate demoProvider m "ping" = .error f) ∧
      ∃ s, generate demoProvider "gemini-pro" "ping" = .ok s ∧
        (⟨"pong", "gemini-pro", 1, 2, 3, 7⟩ : GenerationResult) =
          ⟨s.text, "gemini-pro", s.prompt_tokens, s.completion_tokens,
           s.total_tokens, s.latency_ms⟩ :=
  ⟨rfl, C1_fallback_in_order_first_success demoProvider "ping"
    ["m-a", "m-b", "gemini-pro"] ["m-a", "m-b", "gemini-pro"]
    ⟨"pong", "gemini-pro", 1, 2, 3, 7⟩ rfl⟩

/-- C5: for every inbound request whose body is malformed JSON or lacks
the required non-empty `prompt.text`, the handler returns a client error
(HTTP 400), the database is unchanged, and no event (no persistence
write, no upstream call) takes place. -/
theorem C5_invalid_request_no_side_effects (provider : Provider)
    (persistOk : Bool) (candidates : List String) (db : DB) (ip : String)
    (body : RawBody) (hp : parseBody body = none) :
    (handleGenerate provider persistOk candidates db ip body).1 = db ∧
    (handleGenerate provider persistOk candidates db ip body).2.1.status = 400 ∧
    (handleGenerate provider persistOk candidates db ip body).2.2 = [] := by
  rw [handleGenerate_invalid provider persistOk candidates db ip body hp]
  exact ⟨rfl, rfl, rfl⟩

/-- Witness for C5 on a malformed body. -/
theorem C5_invalid_request_no_side_effects_witness :
    parseBody badBody = none ∧
    ((handleGenerate demoProvider true ["gemini-pro"] demoDB "127.0.0.1" badBody).1
        = demoDB ∧
     (handleGenerate demoProvider true ["gemini-pro"] demoDB "127.0.0.1" badBody).2.1.status
        = 400 ∧
     (handleGenerate demoProvider true ["gemini-pro"] demoDB "127.0.0.1" badBody).2.2
        = []) :=
  ⟨rfl, C5_invalid_request_no_side_effects demoProvider true ["gemini-pro"]
    demoDB "127.0.0.1" badBody rfl⟩

/-- C6: for every request on which all candidate models fail, the
handler returns a server error (HTTP 500) whose body is the failure
marker, and writes no ResponseLog row at all — so the logged outcome
shows that no model succeeded instead of fabricated zero token
metrics. -/
theorem C6_all_models_failed_server_error (provider : Provider)
    (persistOk : Bool) (candidates : List String) (db : DB) (ip : String)
    (body : RawBody) (pt : String) (tr : List String) (a : AllModelsFailed)
    (hp : parseBody body = some pt)
    (hg : generate_with_fallback provider pt candidates = (tr, Except.error a)) :
    (handleGenerate provider persistOk candidates db ip body).2.1.status = 500 ∧
    (handleGenerate provider persistOk candidates db ip body).2.1.body =
      errorJson "all candidate models failed" ∧
    (handleGenerate provider persistOk candidates db ip body).1.response_logs =
      db.response_logs := by
  rw [handleGenerate_allfail provider persistOk candidates db ip body pt tr a hp hg]
  exact ⟨rfl, rfl, rfl⟩

/-- Witness for C6: with a provider for which every call fails, the
handler answers 500 and the response-log table is untouched. -/
theorem C6_all_models_failed_server_error_witness :
    parseBody demoBody = some "ping" ∧
    generate_with_fallback noProvider "ping" ["gemini-pro"] =
      (["gemini-pro"],
       Except.error ⟨[⟨"gemini-pro", "provider call failed"⟩]⟩) ∧
    ((handleGenerate noProvider true ["gemini-pro"] demoDB "127.0.0.1" demoBody).2.1.status
        = 500 ∧
     (handleGenerate noProvider true ["gemini-pro"] demoDB "127.0.0.1" demoBody).2.1.body
        = errorJson "all candidate models failed" ∧
     (handleGenerate noProvider true ["gemini-pro"] demoDB "127.0.0.1" demoBody).1.response_logs
        = demoDB.response_logs) :=
  ⟨rfl, rfl, C6_all_models_failed_server_error noProvider true ["gemini-pro"]
    demoDB "127.0.0.1" demoBody "ping" ["gemini-pro"]
    ⟨[⟨"gemini-pro", "provider call failed"⟩]⟩ rfl rfl⟩

/-- C7: for every request on which generation succeeds but the
ResponseLog write fails, the handler still returns HTTP 200 with the
generated text: the persistence failure is non-fatal and never masks the
successful generation result. -/
theorem C7_persistence_failure_not_masked (provider : Provider)
    (candidates : List String) (db : DB) (ip : String) (body : RawBody)
    (pt : String) (tr : List String) (r : GenerationResult)
    (hp : parseBody body = some pt)
    (hg : generate_with_fallback provider pt candidates = (tr, Except.ok r)) :
    (handleGenerate provider false candidates db ip body).2.1.status = 200 ∧
    (handleGenerate provider false candidates db ip body).2.1.body =
      successJson r.text r.model_used r.prompt_tokens r.completion_tokens
        r.total_tokens ∧
    (handleGenerate provider false candidates db ip body).1.response_logs =
      db.response_logs := by
  rw [handleGenerate_ok_noPersist provider candidates db ip body pt tr r hp hg]
  exact ⟨rfl, rfl, rfl⟩

/-- Witness for C7: a successful generation whose response-log write
fails still answers 200 with the generated text. -/
theorem C7_persistence_failure_not_masked_witness :
    parseBody demoBody = some "ping" ∧
    generate_with_fallback demoProvider "ping" ["gemini-pro"] =
      (["gemini-pro"], Except.ok ⟨"pong", "gemini-pro", 1, 2, 3, 7⟩) ∧
    ((handleGenerate demoProvider false ["gemini-pro"] demoDB "127.0.0.1" demoBody).2.1.status
        = 200 ∧
     (handleGenerate demoProvider false ["gemini-pro"] demoDB "127.0.0.1" demoBody).2.1.body
        = successJson "pong" "gemini-pro" 1 2 3 ∧
     (handleGenerate demoProvider false ["gemini-pro"] demoDB "127.0.0.1" demoBody).1.response_logs
        = demoDB.response_logs) :=
  ⟨rfl, rfl, C7_persistence_failure_not_masked demoProvider ["gemini-pro"]
    demoDB "127.0.0.1" demoBody "ping" ["gemini-pro"]
    ⟨"pong", "gemini-pro", 1, 2, 3, 7⟩ rfl rfl⟩

/-- C2: for every single handled request, the RequestLog write happens
before the upstream calls which happen before the (at most one)
ResponseLog write, and consequently every ResponseLog row references a
RequestLog row that exists, with an earlier-or-equal timestamp (the
correlation invariant is preserved). -/
theorem C2_ordering_and_correlation (provider : Provider) (persistOk : Bool)
    (candidates : List String) (db : DB) (ip : String) (body : RawBody)
    (hwf : db.wf) :
    orderedTrace (handleGenerate provider persistOk candidates db ip body).2.2 ∧
    DB.wf (handleGenerate provider persistOk candidates db ip body).1 := by
  cases hp : parseBody body with
  | none =>
      rw [handleGenerate_invalid provider persistOk candidates db ip body hp]
      exact ⟨Or.inl rfl, hwf⟩
  | some pt =>
      cases hg : generate_with_fallback provider pt candidates with
      | mk tr res =>
          cases res with
          | error a =>
              rw [handleGenerate_allfail provider persistOk candidates db ip body
                    pt tr a hp hg]
              constructor
              · exact Or.inr ⟨db.next_req_id, tr, [], by simp, Or.inl rfl⟩
              · intro rl hrl
                obtain ⟨q, hq, hid, hts⟩ := hwf rl hrl
                exact ⟨q, List.mem_append_left _ hq, hid, hts⟩
          | ok r =>
              cases persistOk with
              | false =>
                  rw [handleGenerate_ok_noPersist provider candidates db ip body
                        pt tr r hp hg]
                  constructor
                  · exact Or.inr ⟨db.next_req_id, tr, [], by simp, Or.inl rfl⟩
                  · intro rl hrl
                    obtain ⟨q, hq, hid, hts⟩ := hwf rl hrl
                    exact ⟨q, List.mem_append_left _ hq, hid, hts⟩
              | true =>
                  rw [handleGenerate_ok_persist provider candidates db ip body
                        pt tr r hp hg]
                  constructor
                  · exact Or.inr ⟨db.next_req_id, tr,
                      [Event.respLogWrite db.next_resp_id], rfl, Or.inr ⟨_, rfl⟩⟩
                  · intro rl hrl
                    rcases List.mem_append.mp hrl with hold | hnew
                    · obtain ⟨q, hq, hid, hts⟩ := hwf rl hold
                      exact ⟨q, List.mem_append_left _ hq, hid, hts⟩
                    · have hr : rl = ⟨db.next_resp_id, db.next_req_id, r.model_used,
                          r.text, r.prompt_tokens, r.completion_tokens,
                          r.total_tokens, r.elapsed_ms, db.clock + 1⟩ := by
                        simpa using hnew
                      subst hr
                      exact ⟨⟨db.next_req_id, "/gemini/generate", ip, body.raw, db.clock⟩,
                        List.mem_append_right _ (by simp), rfl, by simp⟩

/-- Witness for C2 on an empty database, a valid body and a succeeding
provider. -/
theorem C2_ordering_and_correlation_witness :
    DB.wf demoDB ∧
    (orderedTrace
        (handleGenerate demoProvider true ["gemini-pro"] demoDB "127.0.0.1" demoBody).2.2 ∧
     DB.wf (handleGenerate demoProvider true ["gemini-pro"] demoDB "127.0.0.1" demoBody).1) :=
  ⟨fun rl hrl => absurd hrl (by simp [demoDB]),
   C2_ordering_and_correlation demoProvider true ["gemini-pro"] demoDB "127.0.0.1"
     demoBody (fun rl hrl => absurd hrl (by simp [demoDB]))⟩

/-- C3: for every successful generation, the three token counts in the
result and in the persisted ResponseLog are non-negative and
`total_tokens = prompt_tokens + completion_tokens`; the sum is
established by the adapter call for the used model and passed through
unchanged by the orchestrator and the handler. -/
theorem C3_token_counts_sum (provider : Provider) (candidates : List String)
    (db : DB) (ip : String) (body : RawBody) (pt : String)
    (tr : List String) (r : GenerationResult)
    (hp : parseBody body = some pt)
    (hg : generate_with_fallback provider pt candidates = (tr, Except.ok r)) :
    r.total_tokens = r.prompt_tokens + r.completion_tokens ∧
    (0 : Int) ≤ (r.prompt_tokens : Int) ∧
    (0 : Int) ≤ (r.completion_tokens : Int) ∧
    (0 : Int) ≤ (r.total_tokens : Int) ∧
    (∃ s, generate provider r.model_used pt = Except.ok s ∧
       r.prompt_tokens = s.prompt_tokens ∧
       r.completion_tokens = s.completion_tokens ∧
       r.total_tokens = s.total_tokens) ∧
    (∃ row,
       (handleGenerate provider true candidates db ip body).1.response_logs =
         db.response_logs ++ [row] ∧
       row.prompt_tokens = r.prompt_tokens ∧
       row.completion_tokens = r.completion_tokens ∧
       row.total_tokens = r.total_tokens ∧
       row.total_tokens = row.prompt_tokens + row.completion_tokens) := by
  obtain ⟨pre, post, hc, ht, hfail, s, hs, hr⟩ :=
    fallback_ok_decomp provider pt candidates tr r hg
  have hsum : s.total_tokens = s.prompt_tokens + s.completion_tokens :=
    generate_total_eq_sum provider r.model_used pt s hs
  have h1 : r.prompt_tokens = s.prompt_tokens := by rw [hr]
  have h2 : r.completion_tokens = s.completion_tokens := by rw [hr]
  have h3 : r.total_tokens = s.total_tokens := by rw [hr]
  have hrsum : r.total_tokens = r.prompt_tokens + r.completion_tokens := by
    rw [h1, h2, h3, hsum]
  refine ⟨hrsum, Int.natCast_nonneg _, Int.natCast_nonneg _, Int.natCast_nonneg _,
    ⟨s, hs, h1, h2, h3⟩, ?_⟩
  rw [handleGenerate_ok_persist provider candidates db ip body pt tr r hp hg]
  exact ⟨_, rfl, rfl, rfl, rfl, hrsum⟩

/-- Witness for C3 at the concrete successful generation. -/
theorem C3_token_counts_sum_witness :
    parseBody demoBody = some "ping" ∧
    generate_with_fallback demoProvider "ping" ["gemini-pro"] =
      (["gemini-pro"], Except.ok ⟨"pong", "gemini-pro", 1, 2, 3, 7⟩) ∧
    ((3 : Nat) = 1 + 2 ∧
     (0 : Int) ≤ ((1 : Nat) : Int) ∧
     (0 : Int) ≤ ((2 : Nat) : Int) ∧
     (0 : Int) ≤ ((3 : Nat) : Int) ∧
     (∃ s, generate demoProvider "gemini-pro" "ping" = Except.ok s ∧
        (1 : Nat) = s.prompt_tokens ∧
        (2 : Nat) = s.completion_tokens ∧
        (3 : Nat) = s.total_tokens) ∧
     (∃ row,
        (handleGenerate demoProvider true ["gemini-pro"] demoDB "127.0.0.1"
            demoBody).1.response_logs =
          demoDB.response_logs ++ [row] ∧
        row.prompt_tokens = 1 ∧
        row.completion_tokens = 2 ∧
        row.total_tokens = 3 ∧
        row.total_tokens = row.prompt_tokens + row.completion_tokens)) :=
  ⟨rfl, rfl, C3_token_counts_sum demoProvider ["gemini-pro"] demoDB "127.0.0.1"
    demoBody "ping" ["gemini-pro"] ⟨"pong", "gemini-pro", 1, 2, 3, 7⟩ rfl rfl⟩

/-- C4: for every valid inbound request, the handler performs exactly one
RequestLog write, the stored `request_body` is the raw body as received,
it contains the submitted prompt text verbatim, and the write occurs for
every generation outcome (including failure). -/
theorem C4_request_log_raw_verbatim (provider : Provider) (persistOk : Bool)
    (candidates : List String) (db : DB) (ip : String) (body : RawBody)
    (pt : String) (hp : parseBody body = some pt) :
    ∃ row,
      (handleGenerate provider persistOk candidates db ip body).1.request_logs =
        db.request_logs ++ [row] ∧
      row.request_body = body.raw ∧
      containsStr row.request_body pt := by
  have hcontains := parseBody_contains_raw body pt hp
  cases hg : generate_with_fallback provider pt candidates with
  | mk tr res =>
      cases res with
      | error a =>
          rw [handleGenerate_allfail provider persistOk candidates db ip body
                pt tr a hp hg]
          exact ⟨_, rfl, rfl, hcontains⟩
      | ok r =>
          cases persistOk with
          | true =>
              rw [handleGenerate_ok_persist provider candidates db ip body
                    pt tr r hp hg]
              exact ⟨_, rfl, rfl, hcontains⟩
          | false =>
              rw [handleGenerate_ok_noPersist provider candidates db ip body
                    pt tr r hp hg]
              exact ⟨_, rfl, rfl, hcontains⟩

/-- Witness for C4 with a provider for which generation fails: the
RequestLog write still happens and stores the raw body verbatim. -/
theorem C4_request_log_raw_verbatim_witness :
    parseBody demoBody = some "ping" ∧
    ∃ row,
      (handleGenerate noProvider true ["gemini-pro"] demoDB "127.0.0.1"
          demoBody).1.request_logs =
        demoDB.request_logs ++ [row] ∧
      row.request_body = demoBody.raw ∧
      containsStr row.request_body "ping" :=
  ⟨rfl, C4_request_log_raw_verbatim noProvider true ["gemini-pro"] demoDB
    "127.0.0.1" demoBody "ping" rfl⟩

/-- C8: for every request on which generation succeeds, the endpoint
returns HTTP 200 with a JSON object containing exactly the fields
`text` (the generated string), `model` (the model actually used) and
`metrics` with exactly the three integer fields `prompt_tokens`,
`completion_tokens` and `total_tokens`. -/
theorem C8_success_response_shape (provider : Provider) (persistOk : Bool)
    (candidates : List String) (db : DB) (ip : String) (body : RawBody)
    (pt : String) (tr : List String) (r : GenerationResult)
    (hp : parseBody body = some pt)
    (hg : generate_with_fallback provider pt candidates = (tr, Except.ok r)) :
    (handleGenerate provider persistOk candidates db ip body).2.1.status = 200 ∧
    ∃ fs,
      (handleGenerate provider persistOk candidates db ip body).2.1.body =
        Json.obj fs ∧
      (Json.obj fs).fieldNames = ["text", "model", "metrics"] ∧
      fs.lookup "text" = some (Json.str r.text) ∧
      fs.lookup "model" = some (Json.str r.model_used) ∧
      ∃ mfs, fs.lookup "metrics" = some (Json.obj mfs) ∧
        (Json.obj mfs).fieldNames =
          ["prompt_tokens", "completion_tokens", "total_tokens"] ∧
        mfs.lookup "prompt_tokens" = some (Json.num r.prompt_tokens) ∧
        mfs.lookup "completion_tokens" = some (Json.num r.completion_tokens) ∧
        mfs.lookup "total_tokens" = some (Json.num r.total_tokens) := by
  cases persistOk with
  | true =>
      rw [handleGenerate_ok_persist provider candidates db ip body pt tr r hp hg]
      exact ⟨rfl, _, rfl, rfl, rfl, rfl, _, rfl, rfl, rfl, rfl, rfl⟩
  | false =>
      rw [handleGenerate_ok_noPersist provider candidates db ip body pt tr r hp hg]
      exact ⟨rfl, _, rfl, rfl, rfl, rfl, _, rfl, rfl, rfl, rfl, rfl⟩

/-- Witness for C8 at the concrete successful generation. -/
theorem C8_success_response_shape_witness :
    parseBody demoBody = some "ping" ∧
    generate_with_fallback demoProvider "ping" ["gemini-pro"] =
      (["gemini-pro"], Except.ok ⟨"pong", "gemini-pro", 1, 2, 3, 7⟩) ∧
    ((handleGenerate demoProvider true ["gemini-pro"] demoDB "127.0.0.1"
          demoBody).2.1.status = 200 ∧
     ∃ fs,
       (handleGenerate demoProvider true ["gemini-pro"] demoDB "127.0.0.1"
           demoBody).2.1.body = Json.obj fs ∧
       (Json.obj fs).fieldNames = ["text", "model", "metrics"] ∧
       fs.lookup "text" = some (Json.str "pong") ∧
       fs.lookup "model" = some (Json.str "gemini-pro") ∧
       ∃ mfs, fs.lookup "metrics" = some (Json.obj mfs) ∧
         (Json.obj mfs).fieldNames =
           ["prompt_tokens", "completion_tokens", "total_tokens"] ∧
         mfs.lookup "prompt_tokens" = some (Json.num 1) ∧
         mfs.lookup "completion_tokens" = some (Json.num 2) ∧
         mfs.lookup "total_tokens" = some (Json.num 3)) :=
  ⟨rfl, rfl, C8_success_response_shape demoProvider true ["gemini-pro"] demoDB
    "127.0.0.1" demoBody "ping" ["gemini-pro"]
    ⟨"pong", "gemini-pro", 1, 2, 3, 7⟩ rfl rfl⟩

/-- C9: every successfully loaded configuration has a present, non-empty
upstream API credential (so a successful load implies the credential was
supplied — its absence is fatal at startup), a non-empty ordered
candidate-model list, and a default model identifier that is a member of
the candidate list. -/
theorem C9_config_invariants (e : Env) (c : Config)
    (h : loadConfig e = Except.ok c) :
    c.GEMINI_API_KEY ≠ "" ∧ c.MODELS ≠ [] ∧ c.MODEL_NAME ∈ c.MODELS ∧
    e.gemini_api_key ≠ none := by
  unfold loadConfig at h
  cases hk : e.gemini_api_key with
  | none => simp [hk] at h
  | some key =>
      simp only [hk] at h
      by_cases hke : key = ""
      · simp [hke] at h
      · rw [if_neg hke] at h
        cases hm : e.models with
        | nil => simp [hm] at h
        | cons m ms =>
            simp only [hm] at h
            cases hn : e.model_name with
            | none =>
                simp only [hn, Except.ok.injEq] at h
                subst h
                exact ⟨hke, by simp, by simp, by simp [hk]⟩
            | some name =>
                simp only [hn] at h
                by_cases hmem : name ∈ m :: ms
                · rw [if_pos hmem, Except.ok.injEq] at h
                  subst h
                  exact ⟨hke, by simp, hmem, by simp [hk]⟩
                · rw [if_neg hmem] at h
                  exact absurd h (by simp)

/-- Witness for C9 at a concrete environment. -/
theorem C9_config_invariants_witness :
    loadConfig demoEnv =
      Except.ok ⟨"0123456789abc", ["gemini-pro", "gemini-flash"], "gemini-pro"⟩ ∧
    ((⟨"0123456789abc", ["gemini-pro", "gemini-flash"], "gemini-pro"⟩ :
        Config).GEMINI_API_KEY ≠ "" ∧
     (⟨"0123456789abc", ["gemini-pro", "gemini-flash"], "gemini-pro"⟩ :
        Config).MODELS ≠ [] ∧
     (⟨"0123456789abc", ["gemini-pro", "gemini-flash"], "gemini-pro"⟩ :
        Config).MODEL_NAME ∈
       (⟨"0123456789abc", ["gemini-pro", "gemini-flash"], "gemini-pro"⟩ :
        Config).MODELS ∧
     demoEnv.gemini_api_key ≠ none) :=
  ⟨rfl, C9_config_invariants demoEnv
    ⟨"0123456789abc", ["gemini-pro", "gemini-flash"], "gemini-pro"⟩ rfl⟩

/-- C10: the inspection script `check_db.py` is read-only: it issues
exactly the two SELECT statements (one over `request_logs`, one over
`response_logs`), each limited to 5 rows, contains no INSERT, UPDATE or
DELETE, and running it leaves the database state — hence the contents of
both tables — unchanged. -/
theorem C10_check_db_read_only (db : SqliteDB) :
    (check_db_run db).1 = db ∧
    (check_db_run db).2 =
      [(db.table "request_logs").take 5, (db.table "response_logs").take 5] ∧
    check_db_script = [Sql.select "request_logs" 5, Sql.select "response_logs" 5] ∧
    check_db_script.all Sql.isSelect = true :=
  ⟨rfl, rfl, rfl, rfl⟩

end GeminiProxy
